import Mathlib

/- Verification of the telemetry control loop in src/main.cpp of the
Model-Predictive-Control repository.

Modelling conventions:
  - C++ std::string values are List Char; double values are real numbers.
  - The two external numeric services, Eigen's householder QR solve used
    inside polyfit and the MPC optimizer mpc.Solve, are opaque function
    parameters of the pipeline model: no verified claim depends on the
    values they return.
  - An assertion failure (assert aborts the process) is modelled by the
    dedicated outcome CycleOutcome.assertFailure / by polyfit returning
    none. -/

/-- The sentinel substring searched by hasData, main.cpp line 24:
s.find of the four characters of the word null. -/
def nullPat : List Char := ['n', 'u', 'l', 'l']

/-- The one-character set of find_first_of, main.cpp line 25. -/
def openBracketPat : List Char := ['[']

/-- The two-character pattern of rfind, main.cpp line 26: a closing curly
brace followed by a closing square bracket. -/
def closeBracePat : List Char := ['\x7d', ']']

/-- Model of std::string::find with a pattern argument: the least index at
which the pattern occurs as a contiguous substring, none when there is no
occurrence (C++ returns npos, compared against npos by the caller). -/
def strFind (s pat : List Char) : Option Nat :=
  (List.range (s.length + 1)).find? (fun i => List.isPrefixOf pat (s.drop i))

/-- Model of std::string::rfind: the greatest index at which the pattern
occurs as a contiguous substring, none when there is no occurrence. -/
def strRfind (s pat : List Char) : Option Nat :=
  (List.range (s.length + 1)).reverse.find? (fun i => List.isPrefixOf pat (s.drop i))

/-- main.cpp lines 23-33.  Returns the JSON payload substring of a socket
frame, or the empty string.  The null check is performed first; only when
no occurrence of null exists and both brackets are found is
substr(b1, b2 - b1 + 2) taken.  find_first_of with the single-character
set of openBracketPat coincides with strFind for that one-element pattern.
The take count mirrors the C++ size_t expression b2 - b1 + 2 computed
modulo 2 ^ 64 (for frames shorter than 2 ^ 64 characters, the only ones a
real process holds) together with substr clamping the count at the end of
the string. -/
def hasData (s : List Char) : List Char :=
  match strFind s nullPat with
  | some _ => []
  | none =>
    match strFind s openBracketPat, strRfind s closeBracePat with
    | some b1, some b2 => (s.drop b1).take ((b2 + 2 + (2 ^ 64 - b1)) % 2 ^ 64)
    | _, _ => []

/-- The guard of main.cpp line 107: the frame has more than two characters
and starts with the characters 4 and 2. -/
def prefix42 (s : List Char) : Bool :=
  decide (s.length > 2) && (s.getD 0 ' ' == '4') && (s.getD 1 ' ' == '2')

/-- What one onMessage invocation does with a frame: nothing, send a fixed
message back, or run the telemetry steering/throttle pipeline on the
extracted payload (which ends with sending the steer message). -/
inductive LoopAction where
  | silent
  | send (msg : List Char)
  | pipeline (payload : List Char)
deriving DecidableEq

/-- The fixed manual-driving response of main.cpp line 192: the frame
42["manual",..] whose event data is the empty JSON object. -/
def manualMsg : List Char := ("42[\"manual\",\x7b\x7d]").toList

/-- The event tag compared against on main.cpp line 112. -/
def telemetryTag : List Char := ['t', 'e', 'l', 'e', 'm', 'e', 't', 'r', 'y']

/-- Routing logic of onMessage, main.cpp lines 107-195.  The structured
message codec (json::parse followed by reading the event name j[0]) is
external; it is modelled by the function argument decodeEvent giving the
event-name tag of a successfully decoded payload.  When the frame guard
fails nothing happens; when the payload is empty the fixed manual message
is sent; when the decoded event is not telemetry the handler falls through
with no action at all; otherwise the telemetry pipeline runs. -/
def routeMessage (decodeEvent : List Char → List Char) (sdata : List Char) :
    LoopAction :=
  if prefix42 sdata then
    let s := hasData sdata
    if s ≠ [] then
      if decodeEvent s = telemetryTag then LoopAction.pipeline s
      else LoopAction.silent
    else LoopAction.send manualMsg
  else LoopAction.silent

/-- An occurrence of pat inside s gives a matching index for strFind. -/
lemma exists_findIndex_of_infix {s pat : List Char} (h : pat <:+: s) :
    ∃ i ∈ List.range (s.length + 1), List.isPrefixOf pat (s.drop i) = true := by
  rcases h with ⟨u, v, rfl⟩
  refine ⟨u.length, ?_, ?_⟩
  · simp [List.mem_range]
    omega
  · rw [List.append_assoc, List.drop_left]
    simp [List.isPrefixOf_iff_prefix]

/-- A matching index for strFind gives an occurrence of pat inside s. -/
lemma infix_of_findIndex {s pat : List Char} {i : Nat}
    (h : List.isPrefixOf pat (s.drop i) = true) : pat <:+: s := by
  rw [List.isPrefixOf_iff_prefix] at h
  rcases h with ⟨r, hr⟩
  exact ⟨s.take i, r, by rw [List.append_assoc, hr, List.take_append_drop]⟩

/-- strFind succeeds exactly on strings containing the pattern. -/
lemma strFind_isSome_iff {s pat : List Char} :
    (strFind s pat).isSome = true ↔ pat <:+: s := by
  rw [strFind, List.find?_isSome]
  constructor
  · rintro ⟨i, -, hi⟩
    exact infix_of_findIndex hi
  · intro h
    exact exists_findIndex_of_infix h

/-- strRfind succeeds exactly on strings containing the pattern. -/
lemma strRfind_isSome_iff {s pat : List Char} :
    (strRfind s pat).isSome = true ↔ pat <:+: s := by
  rw [strRfind, List.find?_isSome]
  constructor
  · rintro ⟨i, -, hi⟩
    exact infix_of_findIndex hi
  · intro h
    rcases exists_findIndex_of_infix h with ⟨i, hmem, hi⟩
    exact ⟨i, by simp [hmem], hi⟩

/-- A frame containing the null sentinel is mapped to the empty payload. -/
lemma hasData_of_null {s : List Char} (h : nullPat <:+: s) : hasData s = [] := by
  have hs : (strFind s nullPat).isSome = true := strFind_isSome_iff.mpr h
  rcases Option.isSome_iff_exists.mp hs with ⟨j, hj⟩
  simp [hasData, hj]

/-- A frame with no opening square bracket is mapped to the empty payload. -/
lemma hasData_of_no_open {s : List Char} (h : '[' ∉ s) : hasData s = [] := by
  have hb : strFind s openBracketPat = none := by
    rcases ho : strFind s openBracketPat with _ | i
    · rfl
    · exfalso
      have : openBracketPat <:+: s := strFind_isSome_iff.mp (by simp [ho])
      rcases this with ⟨u, v, huv⟩
      exact h (by rw [← huv]; simp [openBracketPat])
  rcases hn : strFind s nullPat with _ | j
  · simp [hasData, hn, hb]
  · simp [hasData, hn]

/-- A frame with no closing brace-bracket pair is mapped to the empty
payload. -/
lemma hasData_of_no_close {s : List Char} (h : ¬ closeBracePat <:+: s) :
    hasData s = [] := by
  have hb : strRfind s closeBracePat = none := by
    rcases ho : strRfind s closeBracePat with _ | i
    · rfl
    · exact absurd (strRfind_isSome_iff.mp (by simp [ho])) h
  rcases hn : strFind s nullPat with _ | j
  · rcases h1 : strFind s openBracketPat with _ | b1 <;> simp [hasData, hn, hb, h1]
  · simp [hasData, hn]

/-- Claim C10 (confirmed): the no-data sentinel check takes priority over
payload extraction.  Any frame containing null as a substring anywhere is
mapped by hasData to the empty string, even when the frame also contains a
well-formed bracketed payload; and any frame lacking an opening square
bracket, or lacking the closing brace-bracket pair, is likewise mapped to
the empty string (routing both to the manual-driving branch). -/
theorem c10_sentinel_priority (s : List Char) :
    (nullPat <:+: s → hasData s = []) ∧
    (('[' ∉ s ∨ ¬ closeBracePat <:+: s) → hasData s = []) := by
  refine ⟨hasData_of_null, ?_⟩
  rintro (h | h)
  · exact hasData_of_no_open h
  · exact hasData_of_no_close h

/-- Witness for C10 at two concrete frames: one containing both the null
sentinel and a well-formed bracketed payload, one containing no brackets
at all. -/
theorem c10_sentinel_priority_witness :
    (nullPat <:+: ("42[\"telemetry\",null\x7d]").toList ∧
      hasData (("42[\"telemetry\",null\x7d]").toList) = []) ∧
    ('[' ∉ ("nodata").toList ∧ hasData (("nodata").toList) = []) :=
  ⟨⟨by decide, (c10_sentinel_priority _).1 (by decide)⟩,
   ⟨by decide, (c10_sentinel_priority _).2 (Or.inl (by decide))⟩⟩

/-- Claim C5 (confirmed): an event frame (42 prefix) whose body matches the
no-data sentinel is answered with the fixed manual-driving message
42["manual",..] and the telemetry pipeline is never invoked on it,
whatever the decoder would have said. -/
theorem c5_manual_on_nodata (decodeEvent : List Char → List Char)
    (sdata : List Char) (h1 : prefix42 sdata = true)
    (h2 : nullPat <:+: sdata) :
    routeMessage decodeEvent sdata = LoopAction.send manualMsg := by
  have h3 : hasData sdata = [] := hasData_of_null h2
  simp [routeMessage, h1, h3]

/-- Witness for C5 at the concrete frame 42null. -/
theorem c5_manual_on_nodata_witness :
    prefix42 (("42null").toList) = true ∧
    nullPat <:+: ("42null").toList ∧
    routeMessage (fun _ => []) (("42null").toList) = LoopAction.send manualMsg :=
  ⟨by decide, by decide, c5_manual_on_nodata _ _ (by decide) (by decide)⟩

/-- Counterexample for claim C6: at the concrete decoded frame
42["other",..] (payload present and well-formed, event name other), the
loop emits nothing at all, contradicting the claim that every
non-telemetry event takes the manual-driving branch and emits the fixed
manual acknowledgment. -/
theorem c6_counterexample :
    routeMessage (fun _ => (("other").toList)) (("42[\"other\",\x7b\x7d]").toList) =
      LoopAction.silent ∧
    LoopAction.silent ≠ LoopAction.send manualMsg := by
  exact ⟨by decide, by decide⟩

/-- Claim C6 (corrected): a successfully decoded event frame whose event
tag differs from telemetry produces no action at all: the telemetry
pipeline is skipped, and no manual-driving acknowledgment is emitted
either (the manual branch is reserved for frames whose extracted payload
is empty). -/
theorem c6_nontelemetry_silent (decodeEvent : List Char → List Char)
    (sdata : List Char) (h1 : prefix42 sdata = true)
    (h2 : hasData sdata ≠ []) (h3 : decodeEvent (hasData sdata) ≠ telemetryTag) :
    routeMessage decodeEvent sdata = LoopAction.silent := by
  simp [routeMessage, h1, h2, h3]

/-- Witness for the corrected C6 at a concrete frame and decoder. -/
theorem c6_nontelemetry_silent_witness :
    prefix42 (("42[\"state\",\x7b\x7d]").toList) = true ∧
    hasData (("42[\"state\",\x7b\x7d]").toList) ≠ [] ∧
    (fun (_ : List Char) => (("state").toList)) (hasData (("42[\"state\",\x7b\x7d]").toList)) ≠ telemetryTag ∧
    routeMessage (fun _ => (("state").toList)) (("42[\"state\",\x7b\x7d]").toList) =
      LoopAction.silent :=
  ⟨by decide, by decide, by decide,
   c6_nontelemetry_silent _ _ (by decide) (by decide) (by decide)⟩

/-- main.cpp lines 36-42: term-by-term evaluation of a polynomial given in
ascending-degree coefficient order, accumulating from index 0 upward. -/
noncomputable def polyeval (coeffs : List ℝ) (x : ℝ) : ℝ :=
  (List.range coeffs.length).foldl (fun result i => result + coeffs.getD i 0 * x ^ i) 0

/-- Left fold of successive additions over an index range is the
corresponding finite sum. -/
lemma foldl_add_eq_sum (f : ℕ → ℝ) (n : ℕ) :
    (List.range n).foldl (fun r i => r + f i) 0 = ∑ i ∈ Finset.range n, f i := by
  induction n with
  | zero => simp
  | succ m ih =>
    rw [List.range_succ, List.foldl_append, ih, Finset.sum_range_succ]
    simp

/-- polyeval computes the sum of coeffs[i] * x ^ i over all indices. -/
lemma polyeval_eq_sum (coeffs : List ℝ) (x : ℝ) :
    polyeval coeffs x = ∑ i ∈ Finset.range coeffs.length, coeffs.getD i 0 * x ^ i := by
  rw [polyeval]
  exact foldl_add_eq_sum _ _

/-- The first-derivative evaluator exactly as the spec words it (4.2 and
4.4): the sum of i * c_i * x ^ (i - 1) over i >= 1 (the i = 0 summand
below is zero because of its leading factor).  The source has no separate
derivative routine; this definition exists to compare the inlined
expression of main.cpp line 137 against the spec's derivative. -/
noncomputable def specDerivEval (coeffs : List ℝ) (x : ℝ) : ℝ :=
  ∑ i ∈ Finset.range coeffs.length, (i : ℝ) * coeffs.getD i 0 * x ^ (i - 1)

/-- At zero the spec derivative collapses to the linear coefficient. -/
lemma specDerivEval_zero (coeffs : List ℝ) :
    specDerivEval coeffs 0 = coeffs.getD 1 0 := by
  rw [specDerivEval, Finset.sum_eq_single 1]
  · norm_num
  · intro b hb hne
    rcases b with _ | k
    · norm_num
    · have hk : k ≠ 0 := by omega
      simp [zero_pow hk]
  · intro h1
    have hlen : coeffs.length ≤ 1 := by
      simp [Finset.mem_range] at h1
      omega
    rw [List.getD_eq_default _ _ hlen]
    norm_num

/-- Componentwise access of a componentwise sum of equal-length vectors. -/
lemma getD_zipWith_add :
    ∀ (c1 c2 : List ℝ) (i : ℕ), i < c1.length → i < c2.length →
      (List.zipWith (fun a b => a + b) c1 c2).getD i 0 = c1.getD i 0 + c2.getD i 0 := by
  intro c1
  induction c1 with
  | nil =>
    intro c2 i h1 h2
    simp at h1
  | cons a t ih =>
    intro c2 i h1 h2
    rcases c2 with _ | ⟨b, t2⟩
    · simp at h2
    · rcases i with _ | j
      · simp
      · simpa using ih t2 j (by simpa using h1) (by simpa using h2)

/-- polyeval is additive in the coefficient vector. -/
lemma polyeval_zipWith_add (c1 c2 : List ℝ) (x : ℝ) (h : c1.length = c2.length) :
    polyeval (List.zipWith (fun a b => a + b) c1 c2) x =
      polyeval c1 x + polyeval c2 x := by
  have hlen : (List.zipWith (fun a b => a + b) c1 c2).length = c1.length := by
    simp [List.length_zipWith, h]
  rw [polyeval_eq_sum, polyeval_eq_sum, polyeval_eq_sum, hlen, ← h,
    ← Finset.sum_add_distrib]
  refine Finset.sum_congr rfl ?_
  intro i hi
  rw [getD_zipWith_add c1 c2 i (Finset.mem_range.mp hi)
    (by rw [← h]; exact Finset.mem_range.mp hi)]
  ring

/-- Claim C9 (confirmed): polyeval returns the sum over i of c_i * x ^ i,
the summation running over ascending indices starting at 0 exactly as the
accumulation loop does, and is therefore linear in the coefficients:
evaluating the componentwise sum of two equal-length coefficient vectors
equals the sum of the two evaluations. -/
theorem c9_polyeval_linear (c1 c2 : List ℝ) (x : ℝ) (h : c1.length = c2.length) :
    polyeval c1 x = ∑ i ∈ Finset.range c1.length, c1.getD i 0 * x ^ i ∧
    polyeval (List.zipWith (fun a b => a + b) c1 c2) x =
      polyeval c1 x + polyeval c2 x :=
  ⟨polyeval_eq_sum c1 x, polyeval_zipWith_add c1 c2 x h⟩

/-- Witness for C9 at concrete coefficient vectors and point. -/
theorem c9_polyeval_linear_witness :
    (([1, 2] : List ℝ).length = ([3, 4] : List ℝ).length) ∧
    (polyeval ([1, 2] : List ℝ) 5 =
        ∑ i ∈ Finset.range ([1, 2] : List ℝ).length,
          ([1, 2] : List ℝ).getD i 0 * (5 : ℝ) ^ i ∧
      polyeval (List.zipWith (fun a b => a + b) ([1, 2] : List ℝ) ([3, 4] : List ℝ)) 5 =
        polyeval ([1, 2] : List ℝ) 5 + polyeval ([3, 4] : List ℝ) 5) :=
  ⟨rfl, c9_polyeval_linear _ _ _ rfl⟩

/-- main.cpp lines 68-73: one world-frame point into the vehicle frame. -/
noncomputable def mapToVehicleCoordinateTransform (x y px py psi : ℝ) : ℝ × ℝ :=
  (Real.cos (-psi) * (x - px) - Real.sin (-psi) * (y - py),
   Real.cos (-psi) * (y - py) + Real.sin (-psi) * (x - px))

/-- main.cpp lines 76-92: the elementwise loop over two coordinate lists,
pushing the transformed coordinates in the order traversed. -/
noncomputable def mapToVehicleCoordinatesTransform :
    List ℝ → List ℝ → ℝ → ℝ → ℝ → List ℝ × List ℝ
  | a :: xs, b :: ys, px, py, psi =>
    let p := mapToVehicleCoordinateTransform a b px py psi
    let r := mapToVehicleCoordinatesTransform xs ys px py psi
    (p.1 :: r.1, p.2 :: r.2)
  | _, _, _, _, _ => ([], [])

/-- The source formula with negated-angle trig rewritten to the direct
rotation form used by the spec. -/
lemma transform_point_eq (x y px py psi : ℝ) :
    mapToVehicleCoordinateTransform x y px py psi =
      (Real.cos psi * (x - px) + Real.sin psi * (y - py),
       -(Real.sin psi) * (x - px) + Real.cos psi * (y - py)) := by
  simp only [mapToVehicleCoordinateTransform, Real.cos_neg, Real.sin_neg, Prod.mk.injEq]
  constructor <;> ring

/-- The elementwise loop is the zip of the pointwise transform over the
two input lists. -/
lemma mapToVehicleCoordinatesTransform_eq_zipWith (px py psi : ℝ) :
    ∀ xs ys : List ℝ,
      mapToVehicleCoordinatesTransform xs ys px py psi =
        (List.zipWith (fun a b => Real.cos psi * (a - px) + Real.sin psi * (b - py)) xs ys,
         List.zipWith (fun a b => -(Real.sin psi) * (a - px) + Real.cos psi * (b - py)) xs ys) := by
  intro xs
  induction xs with
  | nil =>
    intro ys
    cases ys <;> simp [mapToVehicleCoordinatesTransform]
  | cons a t ih =>
    intro ys
    rcases ys with _ | ⟨b, t2⟩
    · simp [mapToVehicleCoordinatesTransform]
    · simp [mapToVehicleCoordinatesTransform, ih, transform_point_eq]

/-- Claim C2 (confirmed): the coordinate transform returns exactly
cos(psi)(x - px) + sin(psi)(y - py) and -sin(psi)(x - px) + cos(psi)(y - py)
for any real heading; the sequence version transforms each element with
this formula in order, maps the empty sequence to the empty sequence, and
preserves length on equal-length inputs. -/
theorem c2_transform_formula (px py psi x y : ℝ) (xs ys : List ℝ)
    (h : xs.length = ys.length) :
    mapToVehicleCoordinateTransform x y px py psi =
      (Real.cos psi * (x - px) + Real.sin psi * (y - py),
       -(Real.sin psi) * (x - px) + Real.cos psi * (y - py)) ∧
    (mapToVehicleCoordinatesTransform xs ys px py psi).1 =
      List.zipWith (fun a b => Real.cos psi * (a - px) + Real.sin psi * (b - py)) xs ys ∧
    (mapToVehicleCoordinatesTransform xs ys px py psi).2 =
      List.zipWith (fun a b => -(Real.sin psi) * (a - px) + Real.cos psi * (b - py)) xs ys ∧
    mapToVehicleCoordinatesTransform [] [] px py psi = ([], []) ∧
    (mapToVehicleCoordinatesTransform xs ys px py psi).1.length = xs.length ∧
    (mapToVehicleCoordinatesTransform xs ys px py psi).2.length = ys.length := by
  refine ⟨transform_point_eq x y px py psi, ?_, ?_, rfl, ?_, ?_⟩ <;>
    simp [mapToVehicleCoordinatesTransform_eq_zipWith, List.length_zipWith, h]

/-- Witness for C2 at a concrete pose, point and one-point sequence. -/
theorem c2_transform_formula_witness :
    (([6] : List ℝ).length = ([7] : List ℝ).length) ∧
    (mapToVehicleCoordinateTransform 4 5 1 2 3 =
        (Real.cos 3 * (4 - 1) + Real.sin 3 * (5 - 2),
         -(Real.sin 3) * (4 - 1) + Real.cos 3 * (5 - 2)) ∧
      (mapToVehicleCoordinatesTransform [6] [7] 1 2 3).1 =
        List.zipWith (fun a b => Real.cos 3 * (a - 1) + Real.sin 3 * (b - 2)) [6] [7] ∧
      (mapToVehicleCoordinatesTransform [6] [7] 1 2 3).2 =
        List.zipWith (fun a b => -(Real.sin 3) * (a - 1) + Real.cos 3 * (b - 2)) [6] [7] ∧
      mapToVehicleCoordinatesTransform [] [] 1 2 3 = ([], []) ∧
      (mapToVehicleCoordinatesTransform [6] [7] 1 2 3).1.length = ([6] : List ℝ).length ∧
      (mapToVehicleCoordinatesTransform [6] [7] 1 2 3).2.length = ([7] : List ℝ).length) :=
  ⟨rfl, c2_transform_formula 1 2 3 4 5 [6] [7] rfl⟩

/-- Claim C7 (confirmed): transforming the vehicle's own world position
yields the vehicle-frame origin, for every pose. -/
theorem c7_own_position_origin (px py psi : ℝ) :
    mapToVehicleCoordinateTransform px py px py psi = (0, 0) := by
  simp [mapToVehicleCoordinateTransform]

/-- Counterexample for claim C8: with pose translation (1, 0) and heading
0, transforming the world origin into the vehicle frame and transforming
the result again with the negated heading (and the same pose position)
gives (-2, 0), not the original point (0, 0): the claimed self-inversion
fails as soon as the pose translation is nonzero. -/
theorem c8_counterexample :
    mapToVehicleCoordinateTransform
        (mapToVehicleCoordinateTransform 0 0 1 0 0).1
        (mapToVehicleCoordinateTransform 0 0 1 0 0).2 1 0 (-0) ≠ ((0 : ℝ), (0 : ℝ)) := by
  norm_num [mapToVehicleCoordinateTransform, Prod.ext_iff, Real.cos_zero, Real.sin_zero]

/-- Claim C8 (corrected): the transform is self-inverse under negation of
heading for poses with zero translation: with px = py = 0, transforming
any point with heading psi and transforming the result with heading -psi
restores the original point exactly, over exact real arithmetic. -/
theorem c8_rotation_self_inverse (x y psi : ℝ) :
    mapToVehicleCoordinateTransform
        (mapToVehicleCoordinateTransform x y 0 0 psi).1
        (mapToVehicleCoordinateTransform x y 0 0 psi).2 0 0 (-psi) = (x, y) := by
  simp only [mapToVehicleCoordinateTransform, Real.cos_neg, Real.sin_neg, neg_neg,
    sub_zero, Prod.mk.injEq]
  constructor
  · linear_combination x * Real.sin_sq_add_cos_sq psi
  · linear_combination y * Real.sin_sq_add_cos_sq psi

/-- main.cpp lines 47-66.  The entry asserts of polyfit guard equal sample
counts and 1 <= order <= size - 1 in signed arithmetic; a failed assert
aborts the whole process, modelled here by none.  The Vandermonde design
matrix built on lines 51-61 and its Eigen householder QR least-squares
solve on lines 63-64 are external numerics whose result no verified claim
depends on; they are modelled by the opaque parameter qrSolve applied to
the samples and the order. -/
def polyfit (qrSolve : List ℝ → List ℝ → ℕ → List ℝ)
    (xvals yvals : List ℝ) (order : ℕ) : Option (List ℝ) :=
  if xvals.length = yvals.length ∧ 1 ≤ order ∧ (order : ℤ) ≤ (xvals.length : ℤ) - 1 then
    some (qrSolve xvals yvals order)
  else none

/-- main.cpp line 136: cross-track error, the fit evaluated at x = 0 minus
the vehicle-frame y = 0. -/
noncomputable def cte (coeffs : List ℝ) : ℝ := polyeval coeffs 0 - 0

/-- main.cpp line 137: heading error, minus the arctangent of the inlined
derivative coeffs[1] + 2 coeffs[2] x + 3 coeffs[3] x ^ 2 at x = 0. -/
noncomputable def epsi (coeffs : List ℝ) : ℝ :=
  -Real.arctan (coeffs.getD 1 0 + 2 * coeffs.getD 2 0 * 0 + 3 * coeffs.getD 3 0 * 0 ^ 2)

/-- main.cpp lines 139-140: the six-component control state streamed into
the optimizer. -/
noncomputable def buildState (v : ℝ) (coeffs : List ℝ) : List ℝ :=
  [0, 0, 0, v, cte coeffs, epsi coeffs]

/-- main.cpp line 148: final steering command decoded from index 6 of the
optimizer's flat output vector. -/
noncomputable def steerValue (vars : List ℝ) : ℝ := vars.getD 6 0 / -0.436332

/-- main.cpp line 149: throttle command, index 7 of the optimizer output,
passed through unmodified. -/
noncomputable def throttleValue (vars : List ℝ) : ℝ := vars.getD 7 0

/-- What one telemetry cycle ends in: an aborted process (failed assert
inside polyfit) or a steer response carrying the decoded commands, the
predicted trajectory and the vehicle-frame reference waypoints. -/
inductive CycleOutcome where
  | assertFailure
  | ok (steer throttle : ℝ) (mpcX mpcY nextX nextY : List ℝ)

/-- The telemetry branch of onMessage, main.cpp lines 112-188: transform
the reference waypoints into the vehicle frame, fit a degree-3 polynomial,
build the state, call the optimizer (the opaque mpcSolve, returning the
flat variable vector and the predicted trajectory), decode actuation and
compose the response.  qrSolve stands for the Eigen least-squares solve
inside polyfit. -/
noncomputable def telemetryCycle
    (qrSolve : List ℝ → List ℝ → ℕ → List ℝ)
    (mpcSolve : List ℝ → List ℝ → List ℝ × List ℝ × List ℝ)
    (ptsx ptsy : List ℝ) (px py psi v : ℝ) : CycleOutcome :=
  let pc := mapToVehicleCoordinatesTransform ptsx ptsy px py psi
  match polyfit qrSolve pc.1 pc.2 3 with
  | none => CycleOutcome.assertFailure
  | some coeffs =>
    let r := mpcSolve (buildState v coeffs) coeffs
    CycleOutcome.ok (steerValue r.1) (throttleValue r.1) r.2.1 r.2.2 pc.1 pc.2

/-- With fewer than four samples the order-3 fit precondition fails. -/
lemma polyfit_eq_none (qrSolve : List ℝ → List ℝ → ℕ → List ℝ)
    (xvals yvals : List ℝ) (h : xvals.length < 4) :
    polyfit qrSolve xvals yvals 3 = none := by
  rw [polyfit, if_neg]
  rintro ⟨-, -, h3⟩
  omega

/-- Counterexample for claim C1: at a concrete telemetry input with only
two reference waypoints the cycle ends in an assertion failure, which
aborts the whole process.  There is no caught FitError, no log-and-skip
path and no surviving connection, contradicting the claimed behavior that
the cycle is merely skipped and the loop continues. -/
theorem c1_counterexample :
    telemetryCycle (fun _ _ _ => []) (fun _ _ => ([], [], []))
        [1, 2] [3, 4] 5 6 7 8 = CycleOutcome.assertFailure := by
  have hlen : (mapToVehicleCoordinatesTransform [1, 2] [3, 4] (5 : ℝ) 6 7).1.length < 4 := by
    rw [mapToVehicleCoordinatesTransform_eq_zipWith]
    simp
  simp only [telemetryCycle]
  rw [polyfit_eq_none _ _ _ hlen]

/-- Claim C1 (corrected): whenever a telemetry message supplies fewer than
four reference waypoints, the assert guarding the degree-3 fit inside
polyfit fails and the process aborts: the cycle produces no steering or
throttle update and the outcome is the assertion failure rather than a
logged, skipped cycle on a surviving connection. -/
theorem c1_short_waypoints_abort
    (qrSolve : List ℝ → List ℝ → ℕ → List ℝ)
    (mpcSolve : List ℝ → List ℝ → List ℝ × List ℝ × List ℝ)
    (ptsx ptsy : List ℝ) (px py psi v : ℝ) (h : ptsx.length < 4) :
    telemetryCycle qrSolve mpcSolve ptsx ptsy px py psi v =
      CycleOutcome.assertFailure := by
  have hlen : (mapToVehicleCoordinatesTransform ptsx ptsy px py psi).1.length < 4 := by
    rw [mapToVehicleCoordinatesTransform_eq_zipWith]
    simp only [List.length_zipWith]
    omega
  simp only [telemetryCycle]
  rw [polyfit_eq_none _ _ _ hlen]

/-- Witness for the corrected C1 at a concrete three-waypoint input. -/
theorem c1_short_waypoints_abort_witness :
    (([0, 1, 2] : List ℝ).length < 4) ∧
    telemetryCycle (fun _ _ _ => []) (fun _ _ => ([], [], []))
        [0, 1, 2] [0, 1, 2] 0 0 0 0 = CycleOutcome.assertFailure :=
  ⟨by norm_num, c1_short_waypoints_abort _ _ _ _ _ _ _ _ (by norm_num)⟩

/-- Claim C3 (confirmed): the state builder computes the cross-track error
as exactly the fitted polynomial evaluated at 0, computes the heading
error as minus the arctangent of the first derivative of the fitted
polynomial at 0 (the spec-side derivative specDerivEval agrees with the
inlined source expression for every coefficient vector), and assembles the
six-component state with the first three components zero, the fourth the
measured speed, and the last two the computed errors. -/
theorem c3_state_builder (coeffs : List ℝ) (v : ℝ) :
    cte coeffs = polyeval coeffs 0 ∧
    epsi coeffs = -Real.arctan (specDerivEval coeffs 0) ∧
    buildState v coeffs = [0, 0, 0, v, cte coeffs, epsi coeffs] := by
  refine ⟨by rw [cte, sub_zero], ?_, rfl⟩
  rw [epsi, specDerivEval_zero]
  norm_num

/-- Claim C4 (confirmed): the final steering command is the raw optimizer
output at index 6 divided by the constant -0.436332 and the throttle is
the raw output at index 7 unmodified; at the raw steering value -0.436332
the final steering is exactly 1. -/
theorem c4_actuation_codec (vars : List ℝ) (h : vars.getD 6 0 = -0.436332) :
    steerValue vars = 1 ∧ throttleValue vars = vars.getD 7 0 := by
  refine ⟨?_, rfl⟩
  rw [steerValue, h]
  norm_num

/-- Witness for C4 at a concrete optimizer output vector. -/
theorem c4_actuation_codec_witness :
    ([0, 0, 0, 0, 0, 0, -0.436332, 0.7] : List ℝ).getD 6 0 = -0.436332 ∧
    (steerValue [0, 0, 0, 0, 0, 0, -0.436332, 0.7] = 1 ∧
      throttleValue ([0, 0, 0, 0, 0, 0, -0.436332, 0.7] : List ℝ) =
        ([0, 0, 0, 0, 0, 0, -0.436332, 0.7] : List ℝ).getD 7 0) :=
  ⟨rfl, c4_actuation_codec _ rfl⟩
